/-
Verification of the FRIDAY voice-assistant command-resolution and
session-state core (repository Railey29/Friday).

The model is a shallow embedding of the Python sources:
  * `app/models/state.py`       — `SystemState`, `CommandDeduplicator`
  * `app/services/actions.py`   — pending-clarification resolution, the
    search/play pattern parser, the fixed keyword table (`COMMANDS`) and
    the two executors (`execute_command`, `_execute_command_silent`)
  * `app/controllers/api.py`    — the `/api/command` resolver
  * `app/controllers/ws.py`     — the websocket receiver

Modelling conventions:
  * wall-clock instants (`datetime.now()` / `time.time()`) are rationals;
    each request is evaluated at a single instant `now`;
  * side effects (text-to-speech requests, `webbrowser.open`, dispatching a
    keyword action on a thread, the Gemini call) are recorded as an event
    list `List Ev` in program order; the Gemini collaborator's reply is an
    explicit input (`GeminiResult`), per its JSON contract;
  * strings are treated as ASCII (the repository's trigger phrases and the
    utterances of interest are ASCII); `str.lower`/`str.strip` and the
    `re` patterns are modelled by executable functions below, with Python's
    leftmost-search and lazy/greedy backtracking semantics.
-/
import Mathlib

set_option maxRecDepth 4000

namespace Friday

/-! ### Python string primitives (ASCII fragment) -/

/-- Whitespace characters recognised by Python's `str.strip` and `\s`. -/
def isPySpace (c : Char) : Bool :=
  c == ' ' || c == '\t' || c == '\n' || c == '\r' || c == '\x0b' || c == '\x0c'

/-- ASCII case folding, the fragment of `str.lower` the repository relies on. -/
def asciiLowerChar (c : Char) : Char :=
  if 'A' ≤ c && c ≤ 'Z' then Char.ofNat (c.toNat + 32) else c

/-- Model of `str.lower` (ASCII). -/
def pylower (t : String) : String :=
  String.mk (t.data.map asciiLowerChar)

/-- Model of `str.strip` with no argument. -/
def pystrip (t : String) : String :=
  String.mk (((t.data.dropWhile isPySpace).reverse.dropWhile isPySpace).reverse)

/-- The normalisation `text.lower().strip()` every entry point applies. -/
def pynorm (t : String) : String :=
  pystrip (pylower t)

/-- Model of Python's substring operator `sub in hay` on char lists. -/
def containsSub (sub : List Char) : List Char → Bool
  | [] => sub.isEmpty
  | c :: rest => sub.isPrefixOf (c :: rest) || containsSub sub rest

/-- Model of Python's substring operator `sub in hay` on strings. -/
def containsStr (sub hay : String) : Bool :=
  containsSub sub.data hay.data

/-- One uppercase hexadecimal digit. -/
def hexDigit (n : Nat) : Char :=
  if n < 10 then Char.ofNat ('0'.toNat + n) else Char.ofNat ('A'.toNat + n - 10)

/-- Characters `urllib.parse.quote` leaves unescaped (default `safe='/'`). -/
def quoteSafe (c : Char) : Bool :=
  c.isAlphanum || c == '_' || c == '.' || c == '-' || c == '~' || c == '/'

/-- Model of `urllib.parse.quote` on ASCII text. -/
def pyquote (s : String) : String :=
  String.mk (s.data.flatMap fun c =>
    if quoteSafe c then [c]
    else ['%', hexDigit (c.toNat / 16 % 16), hexDigit (c.toNat % 16)])

/-! ### A small backtracking regex engine

The parser in `actions.py` uses `re.search` / `re.match` with a fixed set of
patterns built from literals, `\s+`, `\s*`, lazy `(.+?)`, greedy `(.*)` and
`(.+)`, alternation, optional groups and the anchors `^`/`$`.  The engine
below implements exactly those constructs with Python's preference order:
a sequence of patterns is matched against the input, results are produced
in backtracking order, and the first result is the one Python reports. -/

/-- Captured groups, most recent binding first. -/
abbrev Caps := List (Nat × String)

/-- Group lookup (`m.group g`); `none` when the group did not participate. -/
def capGet (caps : Caps) (g : Nat) : Option String :=
  (List.find? (fun p => p.1 == g) caps).map (fun p => p.2)

/-- Pattern elements of the repository's regexes. -/
inductive Pat where
  /-- a literal run of characters -/
  | lit (s : String)
  /-- `\s+` -/
  | ws1
  /-- `\s*` -/
  | ws0
  /-- `(.+?)` capturing group `g` -/
  | lazyPlus (g : Nat)
  /-- `(.*)` capturing group `g` -/
  | greedyStar (g : Nat)
  /-- `(.+)` capturing group `g` -/
  | greedyPlus (g : Nat)
  /-- `(?:A|B|...)` -/
  | alt (branches : List (List Pat))
  /-- `(?:...)?` (greedy) -/
  | opt (ps : List Pat)
  /-- `^` -/
  | bos
  /-- `$` -/
  | eos

/-- Remainders of `s` after consuming a non-empty prefix of its leading
whitespace run, longest consumption first (the greedy order of `\s+`). -/
def wsTails : List Char → List (List Char)
  | [] => []
  | c :: rest => if isPySpace c then wsTails rest ++ [rest] else []

/-- Splits `(consumed, rest)` of `s` with `consumed` non-empty, shortest
first (the lazy order of `(.+?)`). -/
def lazySplits : List Char → List (List Char × List Char)
  | [] => []
  | c :: rest => ([c], rest) :: (lazySplits rest).map (fun p => (c :: p.1, p.2))

/-- All splits `(consumed, rest)` of `s`, shortest consumption first. -/
def splitsAsc : List Char → List (List Char × List Char)
  | [] => [([], [])]
  | c :: rest => ([], c :: rest) :: (splitsAsc rest).map (fun p => (c :: p.1, p.2))

mutual

/-- Weight of a pattern; every step of the matcher strictly decreases the
total weight of the remaining pattern sequence, so it doubles as fuel. -/
def patWeight : Pat → Nat
  | .alt branches => 1 + patListsWeight branches
  | .opt ps => 1 + patListWeight ps
  | _ => 1

/-- Total weight of a pattern sequence. -/
def patListWeight : List Pat → Nat
  | [] => 0
  | p :: rest => patWeight p + patListWeight rest

/-- Total weight of a list of pattern sequences. -/
def patListsWeight : List (List Pat) → Nat
  | [] => 0
  | b :: rest => 1 + patListWeight b + patListsWeight rest

end

/-- Fuel-driven matcher: all ways to match the sequence `ps` against `s`
(a suffix of `full`), in Python's backtracking preference order, each
result giving the unconsumed remainder and the captures.  The fuel only
needs to dominate `patListWeight ps`, which every recursive call strictly
decreases, so `mruns` below never exhausts it. -/
def mrunsF (fuel : Nat) (full : List Char) (ps : List Pat) (s : List Char)
    (caps : Caps) : List (List Char × Caps) :=
  match fuel with
  | 0 => []
  | fuel + 1 =>
    match ps with
    | [] => [(s, caps)]
    | .lit str :: rest =>
      if str.data.isPrefixOf s then mrunsF fuel full rest (s.drop str.data.length) caps
      else []
    | .ws1 :: rest => (wsTails s).flatMap (fun r => mrunsF fuel full rest r caps)
    | .ws0 :: rest => (wsTails s ++ [s]).flatMap (fun r => mrunsF fuel full rest r caps)
    | .lazyPlus g :: rest =>
      (lazySplits s).flatMap
        (fun p => mrunsF fuel full rest p.2 ((g, String.mk p.1) :: caps))
    | .greedyStar g :: rest =>
      ((splitsAsc s).reverse).flatMap
        (fun p => mrunsF fuel full rest p.2 ((g, String.mk p.1) :: caps))
    | .greedyPlus g :: rest =>
      (((splitsAsc s).reverse).filter (fun p => !p.1.isEmpty)).flatMap
        (fun p => mrunsF fuel full rest p.2 ((g, String.mk p.1) :: caps))
    | .alt branches :: rest =>
      branches.flatMap (fun b => mrunsF fuel full (b ++ rest) s caps)
    | .opt qs :: rest =>
      mrunsF fuel full (qs ++ rest) s caps ++ mrunsF fuel full rest s caps
    | .bos :: rest =>
      if s.length == full.length then mrunsF fuel full rest s caps else []
    | .eos :: rest => if s.isEmpty then mrunsF fuel full rest s caps else []

/-- Match the sequence `ps` at the current position. -/
def mruns (full : List Char) (ps : List Pat) (s : List Char) (caps : Caps) :
    List (List Char × Caps) :=
  mrunsF (patListWeight ps + s.length + 1) full ps s caps

/-- Scan start positions left to right and report the first match
(`re.search` semantics). -/
def searchFrom (ps : List Pat) (full : List Char) : List Char → Option Caps
  | [] =>
    match mruns full ps [] [] with
    | r :: _ => some r.2
    | [] => none
  | c :: rest =>
    match mruns full ps (c :: rest) [] with
    | r :: _ => some r.2
    | [] => searchFrom ps full rest

/-- Model of `re.search(pattern, s)`, returning the captures on success. -/
def pysearch (ps : List Pat) (s : String) : Option Caps :=
  searchFrom ps s.data s.data

/-- Model of `re.match(pattern, s)` (anchored at the start). -/
def pymatch (ps : List Pat) (s : String) : Option Caps :=
  match mruns s.data ps s.data [] with
  | r :: _ => some r.2
  | [] => none

/-! ### Observable effects and collaborator replies -/

/-- Externally observable effects of one request, in program order. -/
inductive Ev where
  /-- a call of the text-to-speech collaborator `speak(text)` -/
  | say (text : String)
  /-- `webbrowser.open(url)` -/
  | openUrl (url : String)
  /-- a keyword-table action dispatched on a thread by `execute_command` -/
  | spawn (action : String)
  /-- a keyword-table action dispatched with the speech call no-opped,
  by `_execute_command_silent` -/
  | spawnSilent (action : String)
  /-- a call of the Gemini collaborator `ask_gemini(utterance)` -/
  | classify (utterance : String)
deriving DecidableEq

/-- The JSON object `ask_gemini` returns (`gemini_service.py`). -/
structure GeminiResult where
  has_command : Bool
  command : Option String
  speak_response : String
deriving DecidableEq

/-- Truthiness test `gemini_result.get("has_command") and gemini_result.get("command")`:
an absent/`None`/empty `command` is falsy. -/
def gHasCmd (g : GeminiResult) : Bool :=
  g.has_command && (g.command.getD "" != "")

/-! ### `app/models/state.py` -/

/-- `SystemState.__init__` fields (the clock-independent ones; `start_time`
and the `speak_func` registration are irrelevant to the claims). -/
structure SystemState where
  is_powered_on : Bool
  is_speaking : Bool
  is_mic_on : Bool
  is_volume_on : Bool
  last_command : String
  awake : Bool
  awake_until : Option ℚ
  awake_duration : ℚ
  pending_action : Option String
deriving DecidableEq

/-- The process-start state: `poweredOn=true, awake=false`, 30-second window. -/
def initState : SystemState :=
  { is_powered_on := true, is_speaking := false, is_mic_on := true,
    is_volume_on := true, last_command := "", awake := false,
    awake_until := none, awake_duration := 30, pending_action := none }

/-- Text spoken by the lazy timeout transition in `SystemState.is_awake`. -/
def sleepTimeoutMsg : String := "Sleep mode activated, sir. Say Friday to wake me."

/-- `SystemState.is_awake`: returns the receptiveness flag together with the
(possibly) mutated state and the speech request the timeout path emits.
`tts.py` registers `speak` as `state.speak_func` at import time, so the
`if self.speak_func:` guard is live. -/
def SystemState.is_awake (s : SystemState) (now : ℚ) : Bool × SystemState × List Ev :=
  if s.awake then
    match s.awake_until with
    | some u =>
      if u < now then
        (false, { s with awake := false, awake_until := none }, [.say sleepTimeoutMsg])
      else (true, s, [])
    | none => (true, s, [])
  else (false, s, [])

/-- `SystemState.wake_up`. -/
def SystemState.wake_up (s : SystemState) (now : ℚ) : SystemState :=
  { s with awake := true, awake_until := some (now + s.awake_duration) }

/-- `SystemState.extend_awake`. -/
def SystemState.extend_awake (s : SystemState) (now : ℚ) : SystemState :=
  if s.awake then { s with awake_until := some (now + s.awake_duration) } else s

/-- `SystemState.sleep_now`. -/
def SystemState.sleep_now (s : SystemState) : SystemState :=
  { s with awake := false, awake_until := none }

/-- `SystemState.reset` (note: the source leaves `awake_until` untouched). -/
def SystemState.reset (s : SystemState) : SystemState :=
  { s with is_powered_on := true, is_speaking := false, is_mic_on := true,
           is_volume_on := true, last_command := "", awake := false,
           pending_action := none }

/-- `CommandDeduplicator.__init__` fields. -/
structure CommandDeduplicator where
  last_command : String
  last_command_time : ℚ
  duplicate_window : ℚ
deriving DecidableEq

/-- The fresh deduplicator: empty last command, 5-second window. -/
def initDedup : CommandDeduplicator :=
  { last_command := "", last_command_time := 0, duplicate_window := 5 }

/-- `CommandDeduplicator.is_duplicate`: suppresses an identical command
within the window and leaves the record untouched; otherwise registers the
command and its timestamp. -/
def CommandDeduplicator.is_duplicate (d : CommandDeduplicator) (command : String)
    (current_time : ℚ) : Bool × CommandDeduplicator :=
  if command == d.last_command &&
      decide (current_time - d.last_command_time < d.duplicate_window) then
    (true, d)
  else
    (false, { d with last_command := command, last_command_time := current_time })

/-! ### `app/services/actions.py` — parameterized search actions -/

/-- `search_google(query)`. -/
def search_google (query : String) : List Ev :=
  [.say ("Searching Google for " ++ query ++ ", sir."),
   .openUrl ("https://www.google.com/search?q=" ++ pyquote query)]

/-- `search_youtube(query)`. -/
def search_youtube (query : String) : List Ev :=
  [.say ("Searching YouTube for " ++ query ++ ", sir."),
   .openUrl ("https://www.youtube.com/results?search_query=" ++ pyquote query)]

/-- `play_music(query)`. -/
def play_music (query : String) : List Ev :=
  [.say ("Playing " ++ query ++ " on YouTube, sir."),
   .openUrl ("https://www.youtube.com/results?search_query=" ++ pyquote query)]

/-- `search_spotify(query)`. -/
def search_spotify (query : String) : List Ev :=
  [.say ("Searching Spotify for " ++ query ++ ", sir."),
   .openUrl ("https://open.spotify.com/search/" ++ pyquote query)]

/-- `search_reddit(query)`. -/
def search_reddit (query : String) : List Ev :=
  [.say ("Searching Reddit for " ++ query ++ ", sir."),
   .openUrl ("https://www.reddit.com/search/?q=" ++ pyquote query)]

/-- `search_github(query)`. -/
def search_github (query : String) : List Ev :=
  [.say ("Searching GitHub for " ++ query ++ ", sir."),
   .openUrl ("https://github.com/search?q=" ++ pyquote query)]

/-- `_resolve_pending_action(command_text)`: if a pending clarification is
set, the whole incoming text is the missing argument; the slot is cleared
before dispatch.  An empty-string slot is falsy in Python, hence inert. -/
def _resolve_pending_action (s : SystemState) (command_text : String) :
    Bool × SystemState × List Ev :=
  match s.pending_action with
  | none => (false, s, [])
  | some pending =>
    if pending == "" then (false, s, [])
    else
      let s' := { s with pending_action := none }
      let query := pystrip command_text
      if pending == "search_google" then (true, s', search_google query)
      else if pending == "search_youtube" then (true, s', search_youtube query)
      else if pending == "play_music" then (true, s', play_music query)
      else if pending == "search_spotify" then (true, s', search_spotify query)
      else if pending == "search_reddit" then (true, s', search_reddit query)
      else if pending == "search_github" then (true, s', search_github query)
      else (false, s', [])

/-! ### `_parse_and_execute_search` — the fifteen pattern checks, in source
order.  Each `patN` transcribes the N-th regex of the source. -/

/-- `search\s+(.+?)\s+(?:and|then)\s+play(?:\s+(?:the\s+)?(?:music|song))?\s*(.*)` -/
def pat1 : List Pat :=
  [.lit "search", .ws1, .lazyPlus 1, .ws1, .alt [[.lit "and"], [.lit "then"]], .ws1,
   .lit "play", .opt [.ws1, .opt [.lit "the", .ws1], .alt [[.lit "music"], [.lit "song"]]],
   .ws0, .greedyStar 2]

/-- `play\s+(.+?)\s+on\s+spotify` -/
def pat2 : List Pat := [.lit "play", .ws1, .lazyPlus 1, .ws1, .lit "on", .ws1, .lit "spotify"]

/-- `play\s+(.+?)\s+on\s+youtube` -/
def pat3 : List Pat := [.lit "play", .ws1, .lazyPlus 1, .ws1, .lit "on", .ws1, .lit "youtube"]

/-- `search\s+(.+?)\s+on\s+youtube` -/
def pat4 : List Pat := [.lit "search", .ws1, .lazyPlus 1, .ws1, .lit "on", .ws1, .lit "youtube"]

/-- `search\s+(.+?)\s+on\s+spotify` -/
def pat5 : List Pat := [.lit "search", .ws1, .lazyPlus 1, .ws1, .lit "on", .ws1, .lit "spotify"]

/-- `search\s+(.+?)\s+on\s+reddit` -/
def pat6 : List Pat := [.lit "search", .ws1, .lazyPlus 1, .ws1, .lit "on", .ws1, .lit "reddit"]

/-- `search\s+(.+?)\s+on\s+github` -/
def pat7 : List Pat := [.lit "search", .ws1, .lazyPlus 1, .ws1, .lit "on", .ws1, .lit "github"]

/-- `(?:search\s+(.+?)\s+on\s+google|^google\s+(.+))` -/
def pat8 : List Pat :=
  [.alt [[.lit "search", .ws1, .lazyPlus 1, .ws1, .lit "on", .ws1, .lit "google"],
         [.bos, .lit "google", .ws1, .greedyPlus 2]]]

/-- `^search\s+(.+)` -/
def pat9 : List Pat := [.bos, .lit "search", .ws1, .greedyPlus 1]

/-- `^search\s*$` (used with `re.match`) -/
def pat10 : List Pat := [.lit "search", .ws0, .eos]

/-- `^play\s*(music|song|a\s+song)?\s*$` (used with `re.match`; the
capture is unused by the source). -/
def pat11 : List Pat :=
  [.lit "play", .ws0, .opt [.alt [[.lit "music"], [.lit "song"], [.lit "a", .ws1, .lit "song"]]],
   .ws0, .eos]

/-- `^play\s+(?:music|song|the\s+song)?\s*(.+)` -/
def pat12 : List Pat :=
  [.bos, .lit "play", .ws1, .opt [.alt [[.lit "music"], [.lit "song"], [.lit "the", .ws1, .lit "song"]]],
   .ws0, .greedyPlus 1]

/-- `(?:youtube\s+search|look\s+up)\s+(.+)` -/
def pat13 : List Pat :=
  [.alt [[.lit "youtube", .ws1, .lit "search"], [.lit "look", .ws1, .lit "up"]], .ws1, .greedyPlus 1]

/-- `^(?:youtube\s+search|look\s+up)\s*$` (used with `re.match`) -/
def pat14 : List Pat :=
  [.alt [[.lit "youtube", .ws1, .lit "search"], [.lit "look", .ws1, .lit "up"]], .ws0, .eos]

/-- Clarification prompt of the bare `search` branch. -/
def clarifySearchMsg : String := "Ano ang isesearch ko para sa iyo, sir?"

/-- Clarification prompt of the bare `play` branch. -/
def clarifyPlayMsg : String := "Anong kanta ang ipe-play ko, sir?"

/-- Clarification prompt of the bare `youtube search` / `look up` branch. -/
def clarifyYoutubeMsg : String := "Ano ang hahanaping ko sa YouTube, sir?"

/-- Checks 13 and 14 of `_parse_and_execute_search`. -/
def parseTail13 (s : SystemState) (command_lower : String) :
    Bool × SystemState × List Ev :=
  match pysearch pat13 command_lower with
  | some m => (true, s, search_youtube (pystrip ((capGet m 1).getD "")))
  | none =>
  match pymatch pat14 command_lower with
  | some _ => (true, { s with pending_action := some "search_youtube" }, [.say clarifyYoutubeMsg])
  | none => (false, s, [])

/-- Checks 10 through 14 of `_parse_and_execute_search` (split out because
check 9 falls through into them when its query is empty). -/
def parseTail10 (s : SystemState) (command_lower : String) :
    Bool × SystemState × List Ev :=
  match pymatch pat10 command_lower with
  | some _ => (true, { s with pending_action := some "search_google" }, [.say clarifySearchMsg])
  | none =>
  match pymatch pat11 command_lower with
  | some _ => (true, { s with pending_action := some "play_music" }, [.say clarifyPlayMsg])
  | none =>
  match (pysearch pat12 command_lower).map (fun m => pystrip ((capGet m 1).getD "")) with
  | some query =>
    if query != "" then (true, s, play_music query)
    else parseTail13 s command_lower
  | none => parseTail13 s command_lower

/-- `_parse_and_execute_search(command_lower)`: the fifteen checks in source
order; the first hit wins.  Branches 9 and 12 fall through when the captured
query strips to the empty string, exactly as the source's inner `if query:`
guards do. -/
def _parse_and_execute_search (s : SystemState) (command_lower : String) :
    Bool × SystemState × List Ev :=
  match pysearch pat1 command_lower with
  | some m =>
    let search_query := pystrip ((capGet m 1).getD "")
    let g2 := pystrip ((capGet m 2).getD "")
    let play_query := if g2 == "" then search_query else g2
    (true, s,
      [.say ("Searching for " ++ search_query ++ " and playing " ++ play_query ++ ", sir."),
       .openUrl ("https://www.google.com/search?q=" ++ pyquote search_query),
       .openUrl ("https://www.youtube.com/results?search_query=" ++ pyquote play_query)])
  | none =>
  match pysearch pat2 command_lower with
  | some m => (true, s, search_spotify (pystrip ((capGet m 1).getD "")))
  | none =>
  match pysearch pat3 command_lower with
  | some m => (true, s, play_music (pystrip ((capGet m 1).getD "")))
  | none =>
  match pysearch pat4 command_lower with
  | some m => (true, s, search_youtube (pystrip ((capGet m 1).getD "")))
  | none =>
  match pysearch pat5 command_lower with
  | some m => (true, s, search_spotify (pystrip ((capGet m 1).getD "")))
  | none =>
  match pysearch pat6 command_lower with
  | some m => (true, s, search_reddit (pystrip ((capGet m 1).getD "")))
  | none =>
  match pysearch pat7 command_lower with
  | some m => (true, s, search_github (pystrip ((capGet m 1).getD "")))
  | none =>
  match pysearch pat8 command_lower with
  | some m =>
    (true, s, search_google (pystrip (((capGet m 1).orElse (fun _ => capGet m 2)).getD "")))
  | none =>
  match (pysearch pat9 command_lower).map (fun m => pystrip ((capGet m 1).getD "")) with
  | some query =>
    if query != "" then (true, s, search_google query)
    else parseTail10 s command_lower
  | none => parseTail10 s command_lower

/-! ### The fixed keyword table `COMMANDS` (trigger phrase ↦ action), in
source (dict-insertion) order.  Actions are identified by the name of the
Python function the table binds. -/

/-- The `COMMANDS` dict of `actions.py`. -/
def COMMANDS : List (String × String) := [
  ("open browser", "open_browser"),
  ("open google", "open_google"),
  ("open youtube", "open_youtube"),
  ("open chatgpt", "open_chatgpt"),
  ("chatgpt", "open_chatgpt"),
  ("open copilot", "open_copilot"),
  ("copilot", "open_copilot"),
  ("open gemini", "open_gemini"),
  ("gemini", "open_gemini"),
  ("open claude", "open_claude"),
  ("open perplexity", "open_perplexity"),
  ("open facebook", "open_facebook"),
  ("facebook", "open_facebook"),
  ("open instagram", "open_instagram"),
  ("instagram", "open_instagram"),
  ("open twitter", "open_twitter"),
  ("open tiktok", "open_tiktok"),
  ("tiktok", "open_tiktok"),
  ("open reddit", "open_reddit"),
  ("open linkedin", "open_linkedin"),
  ("open discord", "open_discord"),
  ("discord", "open_discord"),
  ("open telegram", "open_telegram"),
  ("open gmail", "open_gmail"),
  ("gmail", "open_gmail"),
  ("open google drive", "open_drive"),
  ("open drive", "open_drive"),
  ("open google docs", "open_docs"),
  ("open docs", "open_docs"),
  ("open google sheets", "open_sheets"),
  ("open google calendar", "open_calendar"),
  ("open notion", "open_notion"),
  ("open github", "open_github"),
  ("github", "open_github"),
  ("open netflix", "open_netflix"),
  ("netflix", "open_netflix"),
  ("open spotify", "open_spotify"),
  ("spotify", "open_spotify"),
  ("open shopee", "open_shopee"),
  ("shopee", "open_shopee"),
  ("open lazada", "open_lazada"),
  ("lazada", "open_lazada"),
  ("open news", "open_news"),
  ("open notepad", "open_notepad"),
  ("notepad", "open_notepad"),
  ("open calculator", "open_calculator"),
  ("calculator", "open_calculator"),
  ("open file explorer", "open_explorer"),
  ("file explorer", "open_explorer"),
  ("open paint", "open_paint"),
  ("open task manager", "open_task_manager"),
  ("task manager", "open_task_manager"),
  ("open control panel", "open_control_panel"),
  ("open settings", "open_settings"),
  ("open cmd", "open_cmd"),
  ("open command prompt", "open_cmd"),
  ("open powershell", "open_powershell"),
  ("powershell", "open_powershell"),
  ("open vs code", "open_vscode"),
  ("open vscode", "open_vscode"),
  ("open snipping tool", "open_snipping_tool"),
  ("snip", "open_snipping_tool"),
  ("open word", "open_word"),
  ("microsoft word", "open_word"),
  ("open excel", "open_excel"),
  ("microsoft excel", "open_excel"),
  ("open powerpoint", "open_powerpoint"),
  ("microsoft powerpoint", "open_powerpoint"),
  ("open teams", "open_teams"),
  ("microsoft teams", "open_teams"),
  ("open outlook", "open_outlook"),
  ("outlook", "open_outlook"),
  ("open store", "open_store"),
  ("microsoft store", "open_store"),
  ("open camera", "open_camera"),
  ("camera", "open_camera"),
  ("open clock", "open_clock"),
  ("open maps", "open_maps"),
  ("open photos", "open_photos"),
  ("photos", "open_photos"),
  ("open mail", "open_mail"),
  ("open onenote", "open_onenote"),
  ("onenote", "open_onenote"),
  ("minimize all", "minimize_all"),
  ("show desktop", "show_desktop"),
  ("open action center", "open_action_center"),
  ("action center", "open_action_center"),
  ("open notifications", "open_notification_center"),
  ("notifications", "open_notification_center"),
  ("task view", "open_task_view"),
  ("open task view", "open_task_view"),
  ("new virtual desktop", "open_virtual_desktop"),
  ("virtual desktop", "open_virtual_desktop"),
  ("next desktop", "switch_virtual_desktop_right"),
  ("previous desktop", "switch_virtual_desktop_left"),
  ("snap left", "snap_window_left"),
  ("snap right", "snap_window_right"),
  ("maximize", "maximize_window"),
  ("maximize window", "maximize_window"),
  ("minimize", "minimize_window"),
  ("minimize window", "minimize_window"),
  ("close window", "close_window"),
  ("close this", "close_window"),
  ("switch window", "switch_window"),
  ("alt tab", "switch_window"),
  ("volume up", "volume_up"),
  ("increase volume", "volume_up"),
  ("louder", "volume_up"),
  ("volume down", "volume_down"),
  ("decrease volume", "volume_down"),
  ("quieter", "volume_down"),
  ("mute", "mute"),
  ("unmute", "unmute"),
  ("brightness up", "brightness_up"),
  ("increase brightness", "brightness_up"),
  ("brighter", "brightness_up"),
  ("brightness down", "brightness_down"),
  ("decrease brightness", "brightness_down"),
  ("dimmer", "brightness_down"),
  ("take screenshot", "take_screenshot"),
  ("screenshot", "take_screenshot"),
  ("lock screen", "lock_screen"),
  ("lock pc", "lock_screen"),
  ("shutdown", "system_shutdown"),
  ("turn off", "system_shutdown"),
  ("restart", "system_restart"),
  ("reboot", "system_restart"),
  ("cancel shutdown", "cancel_shutdown"),
  ("sleep system", "sleep_system"),
  ("hibernate", "sleep_system"),
  ("empty recycle bin", "empty_recycle_bin"),
  ("clear recycle bin", "empty_recycle_bin"),
  ("what time", "get_time"),
  ("time", "get_time"),
  ("what date", "get_date"),
  ("date", "get_date"),
  ("today", "get_date"),
  ("ip address", "get_ip"),
  ("my ip", "get_ip"),
  ("battery", "get_battery"),
  ("battery status", "get_battery"),
  ("cpu usage", "get_cpu"),
  ("ram usage", "get_ram"),
  ("memory", "get_ram"),
  ("shutdown friday", "shutdown_friday")]

/-- Ordering used by `sorted(COMMANDS.items(), key=lambda x: len(x[0]),
reverse=True)`: keyword length, descending. -/
def keyLenGE (a b : String × String) : Prop := b.1.length ≤ a.1.length

instance : DecidableRel keyLenGE := fun _ _ => Nat.decLe _ _

instance : IsTotal (String × String) keyLenGE :=
  ⟨fun a b => Nat.le_total b.1.length a.1.length⟩

instance : IsTrans (String × String) keyLenGE :=
  ⟨fun _ _ _ hab hbc => le_trans hbc hab⟩

/-- The table sorted longest keyword first.  Python's `sorted` is stable, so
equal-length keywords keep dict order; `List.insertionSort keyLenGE` inserts
each element after all already-placed elements of the same length and hence
realises exactly that stable descending order. -/
def sorted_commands : List (String × String) :=
  List.insertionSort keyLenGE COMMANDS

/-- The keyword scan of both executors: the first phrase of the sorted table
that is a substring of the (lower-cased, trimmed) command. -/
def keywordLookup (c : String) : Option (String × String) :=
  sorted_commands.find? (fun kv => containsStr kv.1 c)

/-- Apology spoken when no rule at all matched (`execute_command` step 2). -/
def notUnderstoodMsg : String := "I\x27m sorry sir, I didn\x27t understand that command."

/-- `execute_command(command_text)`: records the text on the state, then
pending clarification → pattern parser → keyword table, in that order.
The matched table action is dispatched on a daemon thread; `Thread(...)
.start()` does not raise in any modelled run, so the `except` arm
(apology, `False`) is unreachable here and not modelled. -/
def execute_command (s : SystemState) (command_text : String) :
    Bool × SystemState × List Ev :=
  let s0 := { s with last_command := command_text }
  let command_lower := pynorm command_text
  match _resolve_pending_action s0 command_lower with
  | (true, s1, ev) => (true, s1, ev)
  | (false, s1, _) =>
    match _parse_and_execute_search s1 command_lower with
    | (true, s2, ev) => (true, s2, ev)
    | (false, s2, _) =>
      match keywordLookup command_lower with
      | some kv => (true, s2, [.spawn kv.2])
      | none => (false, s2, [.say notUnderstoodMsg])

/-- `_execute_command_silent(command_text)`: identical pipeline, but a table
hit is dispatched with the module-level `speak` temporarily replaced by a
no-op (event `spawnSilent`), and a miss is only logged, not spoken. -/
def _execute_command_silent (s : SystemState) (command_text : String) :
    Bool × SystemState × List Ev :=
  let s0 := { s with last_command := command_text }
  let command_lower := pynorm command_text
  match _resolve_pending_action s0 command_lower with
  | (true, s1, ev) => (true, s1, ev)
  | (false, s1, _) =>
    match _parse_and_execute_search s1 command_lower with
    | (true, s2, ev) => (true, s2, ev)
    | (false, s2, _) =>
      match keywordLookup command_lower with
      | some kv => (true, s2, [.spawnSilent kv.2])
      | none => (false, s2, [])

/-! ### `app/controllers/api.py` — the `/api/command` resolver -/

/-- Greeting of the wake branch. -/
def greetingMsg : String :=
  "Good day sir, pleasure to be at your service. How may I assist you today?"

/-- Farewell of the sleep branch. -/
def farewellMsg : String :=
  "Of course, sir. Going into sleep mode. I\x27ll be here when you need me."

/-- The structured reply of `POST /api/command`. -/
inductive ApiResult where
  /-- `HTTPException(400)` on an empty command -/
  | httpError (detail : String)
  /-- `{"duplicate": true}` -/
  | duplicate
  /-- `{"wake": true, "awake_until": ...}` -/
  | wake (awake_until : Option ℚ)
  /-- `{"sleep": true}` -/
  | sleepAck
  /-- the Gemini branch with a mapped command -/
  | geminiExec (executed : Bool) (mapped : String) (response : String)
      (awake_until : Option ℚ)
  /-- the Gemini branch without a mapped command -/
  | geminiChat (response : String) (awake_until : Option ℚ)
  /-- `{"message": "Waiting for wake word ('Friday')"}` -/
  | waiting
deriving DecidableEq

/-- Whether the command contains one of the three sleep/goodbye phrases. -/
def isSleepPhrase (command : String) : Bool :=
  containsStr "go to sleep" command || containsStr "goodbye friday" command ||
    containsStr "sleep friday" command

/-- The awake tail of `receive_command` (`if state.is_awake(): ... ask_gemini
...`), shared by the sleep-phrase fall-through and the plain path.  `evAcc`
carries events already emitted by an earlier `is_awake` call. -/
def receive_gemini (s : SystemState) (d : CommandDeduplicator) (command : String)
    (now : ℚ) (g : GeminiResult) (evAcc : List Ev) :
    ApiResult × SystemState × CommandDeduplicator × List Ev :=
  let ar := s.is_awake now
  if ar.1 then
    let spEv := if g.speak_response == "" then [] else [Ev.say g.speak_response]
    if gHasCmd g then
      let mc := g.command.getD ""
      let er := _execute_command_silent ar.2.1 mc
      let s3 := if er.1 then er.2.1.extend_awake now else er.2.1
      (.geminiExec er.1 mc g.speak_response s3.awake_until, s3, d,
        evAcc ++ ar.2.2 ++ [.classify command] ++ spEv ++ er.2.2)
    else
      let s2 := ar.2.1.extend_awake now
      (.geminiChat g.speak_response s2.awake_until, s2, d,
        evAcc ++ ar.2.2 ++ [.classify command] ++ spEv)
  else (.waiting, ar.2.1, d, evAcc ++ ar.2.2)

/-- `receive_command` (`POST /api/command`): normalise, reject empty, dedup,
wake word, sleep phrases, then the Gemini-driven awake branch.  All clock
reads of one request are modelled by the single instant `now`; the reply of
the Gemini collaborator is the explicit input `g`. -/
def receive_command (s : SystemState) (d : CommandDeduplicator) (text : String)
    (now : ℚ) (g : GeminiResult) :
    ApiResult × SystemState × CommandDeduplicator × List Ev :=
  let command := pynorm text
  if command == "" then (.httpError "Empty command", s, d, [])
  else
    let dr := d.is_duplicate command now
    if dr.1 then (.duplicate, s, dr.2, [])
    else if containsStr "friday" command then
      let s1 := s.wake_up now
      (.wake s1.awake_until, s1, dr.2, [.say greetingMsg])
    else if isSleepPhrase command then
      let ar := s.is_awake now
      if ar.1 then
        (.sleepAck, ar.2.1.sleep_now, dr.2, ar.2.2 ++ [.say farewellMsg])
      else receive_gemini ar.2.1 dr.2 command now g ar.2.2
    else receive_gemini s dr.2 command now g []

/-! ### `app/controllers/ws.py` — the websocket receiver -/

/-- The structured reply sent on the websocket for one received utterance. -/
inductive WsResult where
  /-- `{"success": false, "error": "Empty command"}` -/
  | wsError
  /-- `{"duplicate": true}` -/
  | wsDuplicate
  /-- `{"wake": true}` -/
  | wsWake
  /-- the Gemini branch with a mapped command -/
  | wsExec (executed : Bool) (mapped : String)
  /-- the Gemini branch without a mapped command -/
  | wsChat (response : String)
  /-- waiting for the wake word -/
  | wsWaiting
deriving DecidableEq

/-- `gemini_result.get("friday_response", ...)` in `ws.py`: `ask_gemini`
never returns a `friday_response` key, so the default is always used. -/
def wsDefaultChatMsg : String := "I\x27m not sure how to help with that, sir."

/-- The websocket receiver loop body for one utterance (`ws.py`).  Unlike
`receive_command` it has no sleep-phrase branch, executes a mapped command
with the ordinary (speaking) executor, and speaks the constant fallback
reply in the chat branch. -/
def ws_receive (s : SystemState) (d : CommandDeduplicator) (text : String)
    (now : ℚ) (g : GeminiResult) :
    WsResult × SystemState × CommandDeduplicator × List Ev :=
  let command := pynorm text
  if command == "" then (.wsError, s, d, [])
  else
    let dr := d.is_duplicate command now
    if dr.1 then (.wsDuplicate, s, dr.2, [])
    else if containsStr "friday" command then
      let s1 := s.wake_up now
      (.wsWake, s1, dr.2, [.say greetingMsg])
    else
      let ar := s.is_awake now
      if ar.1 then
        if gHasCmd g then
          let mc := g.command.getD ""
          let er := execute_command ar.2.1 mc
          let s3 := if er.1 then er.2.1.extend_awake now else er.2.1
          (.wsExec er.1 mc, s3, dr.2, ar.2.2 ++ [.classify command] ++ er.2.2)
        else
          let s2 := ar.2.1.extend_awake now
          (.wsChat wsDefaultChatMsg, s2, dr.2,
            ar.2.2 ++ [.classify command, .say wsDefaultChatMsg])
      else (.wsWaiting, ar.2.1, dr.2, ar.2.2)

/-! ### Shared lemmas -/

/-- `List.isPrefixOf` decides the prefix relation. -/
theorem isPrefixOf_eq_true : ∀ (l₁ l₂ : List Char), l₁.isPrefixOf l₂ = true ↔ l₁ <+: l₂
  | [], l₂ => by simp [List.isPrefixOf]
  | a :: t, [] => by simp [List.isPrefixOf]
  | a :: t, b :: u => by
    rw [List.isPrefixOf, Bool.and_eq_true, beq_iff_eq, isPrefixOf_eq_true t u,
      List.cons_prefix_cons]

/-- `containsSub` decides the contiguous-substring relation. -/
theorem containsSub_correct : ∀ (sub hay : List Char), containsSub sub hay = true ↔ sub <:+: hay
  | sub, [] => by simp [containsSub, List.isEmpty_iff]
  | sub, c :: rest => by
    rw [containsSub, Bool.or_eq_true, isPrefixOf_eq_true, containsSub_correct sub rest,
      List.infix_cons_iff]

/-- Substring containment is transitive. -/
theorem containsStr_trans {a b c : String} (h₁ : containsStr a b = true)
    (h₂ : containsStr b c = true) : containsStr a c = true := by
  rw [containsStr, containsSub_correct] at h₁ h₂ ⊢
  exact h₁.trans h₂

/-- A string containing a non-empty substring is itself non-empty. -/
theorem ne_empty_of_containsStr {a c : String} (ha : a ≠ "")
    (h : containsStr a c = true) : c ≠ "" := by
  rintro rfl
  rw [containsStr, containsSub_correct] at h
  rw [List.infix_nil] at h
  exact ha (congrArg String.mk h)

/-- In a list sorted by descending keyword length, `find?` never returns an
entry shorter than some matching entry: the first hit is at least as long as
every member satisfying the predicate. -/
theorem find?_sorted_le {p : String × String → Bool} :
    ∀ {l : List (String × String)} {a kv : String × String},
      List.Sorted keyLenGE l → a ∈ l → p a = true → l.find? p = some kv →
      a.1.length ≤ kv.1.length := by
  intro l
  induction l with
  | nil => intro a kv _ ha; cases ha
  | cons x xs ih =>
    intro a kv hs ha hp hf
    by_cases hx : p x = true
    · rw [List.find?_cons_of_pos _ hx] at hf
      obtain rfl : x = kv := Option.some.inj hf
      rcases List.mem_cons.1 ha with rfl | ha'
      · exact le_refl _
      · exact List.rel_of_sorted_cons hs a ha'
    · rw [List.find?_cons_of_neg _ hx] at hf
      rcases List.mem_cons.1 ha with rfl | ha'
      · exact absurd hp hx
      · exact ih hs.of_cons ha' hp hf

/-- The sorted keyword table is sorted by descending keyword length. -/
theorem sorted_commands_sorted : List.Sorted keyLenGE sorted_commands :=
  List.sorted_insertionSort keyLenGE COMMANDS

/-- The sorted keyword table is a permutation of the source dict. -/
theorem sorted_commands_perm : sorted_commands.Perm COMMANDS :=
  List.perm_insertionSort keyLenGE COMMANDS

/-- When `is_awake` answers `true` it neither mutates the state nor speaks. -/
theorem is_awake_of_true {s : SystemState} {now : ℚ}
    (h : (s.is_awake now).1 = true) : s.is_awake now = (true, s, []) := by
  unfold SystemState.is_awake at h ⊢
  by_cases ha : s.awake
  · simp only [ha, if_true] at h ⊢
    cases hu : s.awake_until with
    | none => rfl
    | some u =>
      simp only [hu] at h ⊢
      by_cases hlt : u < now
      · simp [hlt] at h
      · simp [hlt]
  · simp [ha] at h

/-- A cleared pending slot makes `_resolve_pending_action` a no-op. -/
theorem resolve_pending_of_none {s : SystemState} (c : String)
    (h : s.pending_action = none) : _resolve_pending_action s c = (false, s, []) := by
  unfold _resolve_pending_action
  rw [h]

/-- `_resolve_pending_action` touches no state field except `pending_action`. -/
theorem resolve_pending_shape (s : SystemState) (c : String) :
    ∃ pa, (_resolve_pending_action s c).2.1 = { s with pending_action := pa } := by
  unfold _resolve_pending_action
  split
  · exact ⟨s.pending_action, rfl⟩
  · split_ifs <;> first
      | exact ⟨s.pending_action, rfl⟩
      | exact ⟨none, rfl⟩

/-- `parseTail13` touches no state field except `pending_action`. -/
theorem parseTail13_shape (s : SystemState) (c : String) :
    ∃ pa, (parseTail13 s c).2.1 = { s with pending_action := pa } := by
  unfold parseTail13
  repeat' first
    | exact ⟨s.pending_action, rfl⟩
    | exact ⟨some "search_youtube", rfl⟩
    | split

/-- `parseTail10` touches no state field except `pending_action`. -/
theorem parseTail10_shape (s : SystemState) (c : String) :
    ∃ pa, (parseTail10 s c).2.1 = { s with pending_action := pa } := by
  unfold parseTail10
  repeat' first
    | exact ⟨some "search_google", rfl⟩
    | exact ⟨some "play_music", rfl⟩
    | exact ⟨s.pending_action, rfl⟩
    | exact parseTail13_shape s c
    | split

/-- `_parse_and_execute_search` touches no state field except `pending_action`. -/
theorem parse_shape (s : SystemState) (c : String) :
    ∃ pa, (_parse_and_execute_search s c).2.1 = { s with pending_action := pa } := by
  unfold _parse_and_execute_search
  repeat' first
    | exact ⟨s.pending_action, rfl⟩
    | exact parseTail10_shape s c
    | split

/-- `_execute_command_silent` only records the text and updates the pending
slot; every other field — in particular the awake timer — is untouched. -/
theorem silent_shape (s : SystemState) (c : String) :
    ∃ pa, (_execute_command_silent s c).2.1 =
      { s with last_command := c, pending_action := pa } := by
  unfold _execute_command_silent
  simp only []
  split
  · next s₁ ev heq =>
    obtain ⟨pa, hpa⟩ := resolve_pending_shape { s with last_command := c } (pynorm c)
    rw [heq] at hpa
    exact ⟨pa, hpa⟩
  · next s₁ _ heq =>
    obtain ⟨pa₁, hpa₁⟩ := resolve_pending_shape { s with last_command := c } (pynorm c)
    rw [heq] at hpa₁
    have hs₁ : s₁ = { s with last_command := c, pending_action := pa₁ } := hpa₁
    split
    · next s₂ ev heq₂ =>
      obtain ⟨pa₂, hpa₂⟩ := parse_shape s₁ (pynorm c)
      rw [heq₂] at hpa₂
      have hs₂ : s₂ = { s₁ with pending_action := pa₂ } := hpa₂
      exact ⟨pa₂, by rw [hs₂, hs₁]⟩
    · next s₂ _ heq₂ =>
      obtain ⟨pa₂, hpa₂⟩ := parse_shape s₁ (pynorm c)
      rw [heq₂] at hpa₂
      have hs₂ : s₂ = { s₁ with pending_action := pa₂ } := hpa₂
      split <;> exact ⟨pa₂, by rw [hs₂, hs₁]⟩

/-- `execute_command` only records the text and updates the pending slot. -/
theorem exec_shape (s : SystemState) (c : String) :
    ∃ pa, (execute_command s c).2.1 =
      { s with last_command := c, pending_action := pa } := by
  unfold execute_command
  simp only []
  split
  · next s₁ ev heq =>
    obtain ⟨pa, hpa⟩ := resolve_pending_shape { s with last_command := c } (pynorm c)
    rw [heq] at hpa
    exact ⟨pa, hpa⟩
  · next s₁ _ heq =>
    obtain ⟨pa₁, hpa₁⟩ := resolve_pending_shape { s with last_command := c } (pynorm c)
    rw [heq] at hpa₁
    have hs₁ : s₁ = { s with last_command := c, pending_action := pa₁ } := hpa₁
    split
    · next s₂ ev heq₂ =>
      obtain ⟨pa₂, hpa₂⟩ := parse_shape s₁ (pynorm c)
      rw [heq₂] at hpa₂
      have hs₂ : s₂ = { s₁ with pending_action := pa₂ } := hpa₂
      exact ⟨pa₂, by rw [hs₂, hs₁]⟩
    · next s₂ _ heq₂ =>
      obtain ⟨pa₂, hpa₂⟩ := parse_shape s₁ (pynorm c)
      rw [heq₂] at hpa₂
      have hs₂ : s₂ = { s₁ with pending_action := pa₂ } := hpa₂
      split <;> exact ⟨pa₂, by rw [hs₂, hs₁]⟩

/-- The session-receptiveness invariant: an awake session has its expiry set. -/
def AwakeInv (s : SystemState) : Prop := s.awake = true → s.awake_until.isSome

/-- The state returned by `is_awake` keeps the invariant. -/
theorem is_awake_inv {s : SystemState} (now : ℚ) (h : AwakeInv s) :
    AwakeInv ((s.is_awake now).2.1) := by
  unfold SystemState.is_awake
  by_cases ha : s.awake
  · simp only [ha, if_true]
    cases hu : s.awake_until with
    | none => simpa [hu] using h
    | some u =>
      by_cases hlt : u < now
      · intro hcon
        simp [hlt] at hcon
      · simpa [hlt] using h
  · simpa [ha] using h

/-- The awake tail of the resolver keeps the invariant. -/
theorem receive_gemini_inv {s : SystemState} (d : CommandDeduplicator) (c : String)
    (now : ℚ) (g : GeminiResult) (ev : List Ev) (h : AwakeInv s) :
    AwakeInv ((receive_gemini s d c now g ev).2.1) := by
  have hext : ∀ s' : SystemState, AwakeInv s' → AwakeInv (s'.extend_awake now) := by
    intro s' h'
    unfold SystemState.extend_awake
    by_cases h'' : s'.awake = true
    · rw [if_pos h'']
      intro _
      rfl
    · rw [if_neg h'']
      exact h'
  have hIA : AwakeInv ((s.is_awake now).2.1) := is_awake_inv now h
  unfold receive_gemini
  by_cases hr : (s.is_awake now).1 = true
  · simp only [hr, if_true]
    by_cases hg : gHasCmd g = true
    · simp only [hg, if_true]
      obtain ⟨pa, hpa⟩ := silent_shape ((s.is_awake now).2.1) (g.command.getD "")
      have hinv : AwakeInv ((_execute_command_silent ((s.is_awake now).2.1)
          (g.command.getD "")).2.1) := by
        rw [hpa]
        intro hb
        exact hIA hb
      by_cases hex : (_execute_command_silent ((s.is_awake now).2.1) (g.command.getD "")).1 = true
      · simpa [hex] using hext _ hinv
      · simp only [Bool.not_eq_true] at hex
        simpa [hex] using hinv
    · simp only [Bool.not_eq_true] at hg
      simpa [hg] using hext _ hIA
  · simp only [Bool.not_eq_true] at hr
    simpa [hr] using hIA

/-! ### Claims -/

/-- On the bare word `search` the pattern parser (checks 1–9 all failing)
reaches check 10, speaks the clarification prompt and records the pending
google-search action — for every starting state. -/
theorem parse_bare_search (s : SystemState) :
    _parse_and_execute_search s "search" =
      (true, { s with pending_action := some "search_google" }, [.say clarifySearchMsg]) := by
  unfold _parse_and_execute_search parseTail10
  rw [show pysearch pat1 "search" = none from by decide,
    show pysearch pat2 "search" = none from by decide,
    show pysearch pat3 "search" = none from by decide,
    show pysearch pat4 "search" = none from by decide,
    show pysearch pat5 "search" = none from by decide,
    show pysearch pat6 "search" = none from by decide,
    show pysearch pat7 "search" = none from by decide,
    show pysearch pat8 "search" = none from by decide,
    show pysearch pat9 "search" = none from by decide,
    show pymatch pat10 "search" = some [] from by decide]
  rfl

/-- C5: an awake state always carries an expiry (`AwakeInv`, established at
start-up and preserved by every operation including a whole resolver pass);
when `is_awake` runs after the expiry has passed it atomically clears
`awake`/`awake_until`, emits the going-to-sleep speech exactly once, and
answers `false`; every further `is_awake` call on the resulting state
answers `false` without speaking or mutating anything. -/
theorem c5_awake_timeout_once :
    (∀ (s : SystemState) (now u : ℚ), s.awake = true → s.awake_until = some u → u < now →
      s.is_awake now =
        (false, { s with awake := false, awake_until := none }, [.say sleepTimeoutMsg]) ∧
      ∀ t : ℚ, ({ s with awake := false, awake_until := none } : SystemState).is_awake t =
        (false, { s with awake := false, awake_until := none }, [])) ∧
    AwakeInv initState ∧
    (∀ (s : SystemState) (now : ℚ), AwakeInv s →
      AwakeInv (s.wake_up now) ∧ AwakeInv (s.extend_awake now) ∧ AwakeInv s.sleep_now ∧
      AwakeInv s.reset ∧ AwakeInv ((s.is_awake now).2.1)) ∧
    (∀ (s : SystemState) (d : CommandDeduplicator) (text : String) (now : ℚ)
      (g : GeminiResult), AwakeInv s → AwakeInv ((receive_command s d text now g).2.1)) := by
  refine ⟨?_, ?_, ?_, ?_⟩
  · intro s now u h1 h2 h3
    constructor
    · unfold SystemState.is_awake
      simp [h1, h2, h3]
    · intro t
      rfl
  · intro hb
    exact Bool.noConfusion hb
  · intro s now h
    refine ⟨fun _ => rfl, ?_, fun hb => Bool.noConfusion hb, fun hb => Bool.noConfusion hb,
      is_awake_inv now h⟩
    unfold SystemState.extend_awake
    by_cases h'' : s.awake = true
    · rw [if_pos h'']
      intro _
      rfl
    · rw [if_neg h'']
      exact h
  · intro s d text now g h
    unfold receive_command
    simp only []
    by_cases h0 : (pynorm text == "") = true
    · rw [if_pos h0]
      exact h
    · rw [if_neg h0]
      by_cases h1 : (d.is_duplicate (pynorm text) now).1 = true
      · rw [if_pos h1]
        exact h
      · rw [if_neg h1]
        by_cases h2 : containsStr "friday" (pynorm text) = true
        · rw [if_pos h2]
          intro _
          rfl
        · rw [if_neg h2]
          by_cases h3 : isSleepPhrase (pynorm text) = true
          · rw [if_pos h3]
            by_cases h4 : (s.is_awake now).1 = true
            · rw [if_pos h4]
              intro hb
              exact Bool.noConfusion hb
            · rw [if_neg h4]
              exact receive_gemini_inv _ _ _ _ _ (is_awake_inv now h)
          · rw [if_neg h3]
            exact receive_gemini_inv _ _ _ _ _ h

/-- C5 witness: a concrete awake state whose window expired at 10, read at 20. -/
theorem c5_awake_timeout_once_witness :
    ({ initState with awake := true, awake_until := some 10 } : SystemState).is_awake 20 =
      (false, initState, [.say sleepTimeoutMsg]) ∧
    initState.is_awake 25 = (false, initState, []) := by
  have h := (c5_awake_timeout_once.1 { initState with awake := true, awake_until := some 10 }
    20 10 rfl rfl (by norm_num))
  exact ⟨h.1, h.2 25⟩

/-- C6: inside the execution pipeline the pending-clarification check runs
before every pattern and before the keyword table.  Executing the bare word
`search` speaks the clarification prompt, sets the pending google-search
action and counts as handled; the next executed text — whatever it is, even
one that would match a pattern or the table — is consumed verbatim (after
the entry normalisation) as the google-search query and the slot is cleared,
so a third text finds the slot empty and the pending check inert. -/
theorem c6_pending_search_roundtrip :
    (∀ s : SystemState, s.pending_action = none →
      execute_command s "search" =
        (true, { s with last_command := "search", pending_action := some "search_google" },
         [.say clarifySearchMsg])) ∧
    (∀ (s : SystemState) (q : String), s.pending_action = some "search_google" →
      execute_command s q =
        (true, { s with last_command := q, pending_action := none },
         search_google (pystrip (pynorm q)))) ∧
    (∀ (s : SystemState) (c : String), s.pending_action = none →
      _resolve_pending_action s c = (false, s, [])) := by
  refine ⟨?_, ?_, fun s c h => resolve_pending_of_none c h⟩
  · intro s h
    unfold execute_command
    simp only []
    rw [show pynorm "search" = "search" from by decide,
      resolve_pending_of_none "search"
        (show ({ s with last_command := "search" } : SystemState).pending_action = none from h)]
    dsimp only []
    rw [parse_bare_search]
  · intro s q h
    unfold execute_command
    simp only []
    unfold _resolve_pending_action
    rw [show ({ s with last_command := q } : SystemState).pending_action =
      some "search_google" from h]
    rfl

/-- C6 witness: the concrete round trip `search` then `kittens` from the
start state. -/
theorem c6_pending_search_roundtrip_witness :
    execute_command initState "search" =
      (true,
       { initState with last_command := "search", pending_action := some "search_google" },
       [.say clarifySearchMsg]) ∧
    execute_command
        { initState with last_command := "search", pending_action := some "search_google" }
        "kittens" =
      (true, { initState with last_command := "kittens", pending_action := none },
       search_google "kittens") :=
  ⟨c6_pending_search_roundtrip.1 initState rfl,
   c6_pending_search_roundtrip.2.1 _ "kittens" rfl⟩

/-- C7: the keyword scan works on the table sorted by strictly descending
trigger length (a stable permutation of the dict) and takes the first
substring hit, so the selected trigger is never shorter than any other
matching trigger; whenever `open google drive` occurs in the utterance the
scan cannot select `open google`; and `please open google drive now`
dispatches exactly the `open_drive` action. -/
theorem c7_longest_trigger_wins :
    List.Sorted keyLenGE sorted_commands ∧
    sorted_commands.Perm COMMANDS ∧
    (∀ (c : String) (a : String × String), a ∈ COMMANDS → containsStr a.1 c = true →
      ∃ kv, keywordLookup c = some kv ∧ a.1.length ≤ kv.1.length) ∧
    (∀ (c : String) (kv : String × String), containsStr "open google drive" c = true →
      keywordLookup c = some kv → kv.1 ≠ "open google") ∧
    execute_command initState "please open google drive now" =
      (true, { initState with last_command := "please open google drive now" },
       [.spawn "open_drive"]) := by
  have hgen : ∀ (c : String) (a : String × String), a ∈ COMMANDS → containsStr a.1 c = true →
      ∃ kv, keywordLookup c = some kv ∧ a.1.length ≤ kv.1.length := by
    intro c a ha hp
    have ha' : a ∈ sorted_commands := sorted_commands_perm.mem_iff.2 ha
    have hsome : (sorted_commands.find? (fun kv => containsStr kv.1 c)).isSome :=
      List.find?_isSome.2 ⟨a, ha', hp⟩
    obtain ⟨kv, hkv⟩ := Option.isSome_iff_exists.1 hsome
    exact ⟨kv, hkv, find?_sorted_le sorted_commands_sorted ha' hp hkv⟩
  refine ⟨sorted_commands_sorted, sorted_commands_perm, hgen, ?_, by decide⟩
  intro c kv hc hfind
  have hm : (("open google drive", "open_drive") : String × String) ∈ COMMANDS := by decide
  obtain ⟨kv', hkv', hlen⟩ := hgen c ("open google drive", "open_drive") hm hc
  rw [hfind] at hkv'
  obtain rfl : kv = kv' := Option.some.inj hkv'
  intro heq
  rw [heq] at hlen
  exact absurd hlen (by decide)

/-- C7 witness: on `please open google drive now` the scan does match the
long trigger and can never report `open google`. -/
theorem c7_longest_trigger_wins_witness :
    containsStr "open google drive" "please open google drive now" = true ∧
    keywordLookup "please open google drive now" ≠ some ("open google", "open_google") :=
  ⟨by decide, fun h =>
    c7_longest_trigger_wins.2.2.2.1 "please open google drive now"
      ("open google", "open_google") (by decide) h rfl⟩

/-- C8: whenever the compound `search A and|then play [the] [music|song] [B]`
pattern matches, the parser handles the command with that pattern — no
single-verb pattern and no table entry is consulted — and emits the search
with query A followed by the play whose query falls back to A when B is
absent or blank; concretely, `search kittens and play music` performs a
google search for `kittens` and then a play of `kittens`. -/
theorem c8_compound_before_single :
    (∀ (s : SystemState) (c : String) (m : Caps), pysearch pat1 c = some m →
      _parse_and_execute_search s c =
        (true, s,
         [.say ("Searching for " ++ pystrip ((capGet m 1).getD "") ++ " and playing " ++
            (if pystrip ((capGet m 2).getD "") == "" then pystrip ((capGet m 1).getD "")
             else pystrip ((capGet m 2).getD "")) ++ ", sir."),
          .openUrl ("https://www.google.com/search?q=" ++
            pyquote (pystrip ((capGet m 1).getD ""))),
          .openUrl ("https://www.youtube.com/results?search_query=" ++
            pyquote (if pystrip ((capGet m 2).getD "") == "" then pystrip ((capGet m 1).getD "")
              else pystrip ((capGet m 2).getD "")))])) ∧
    execute_command initState "search kittens and play music" =
      (true, { initState with last_command := "search kittens and play music" },
       [.say "Searching for kittens and playing kittens, sir.",
        .openUrl "https://www.google.com/search?q=kittens",
        .openUrl "https://www.youtube.com/results?search_query=kittens"]) := by
  refine ⟨?_, by decide⟩
  intro s c m h
  unfold _parse_and_execute_search
  rw [h]

/-- C8 witness: the compound pattern on the concrete utterance, with its
captures, fed through the first conjunct. -/
theorem c8_compound_before_single_witness :
    pysearch pat1 "search kittens and play music" = some [(2, ""), (1, "kittens")] ∧
    _parse_and_execute_search initState "search kittens and play music" =
      (true, initState,
       [.say "Searching for kittens and playing kittens, sir.",
        .openUrl "https://www.google.com/search?q=kittens",
        .openUrl "https://www.youtube.com/results?search_query=kittens"]) :=
  ⟨by decide,
   c8_compound_before_single.1 initState "search kittens and play music"
     [(2, ""), (1, "kittens")] (by decide)⟩

/-- C3 counterexample: `goodbye friday` spoken to an awake session does not
sleep it — the wake-word check (`"friday" in command`) fires first, so the
resolver re-wakes, re-greets and returns a wake result, and the session
stays awake. -/
theorem c3_goodbye_friday_counterexample :
    receive_command { initState with awake := true, awake_until := some 200 } initDedup
        "goodbye friday" 100 ⟨false, none, ""⟩ =
      (.wake (some 130), { initState with awake := true, awake_until := some 130 },
       { initDedup with last_command := "goodbye friday", last_command_time := 100 },
       [.say greetingMsg]) := by
  with_unfolding_all decide

/-- C3 as amended: a sleep phrase sleeps an awake session only when the
utterance does not contain `friday`; of the three phrases only `go to sleep`
can satisfy that, since `goodbye friday` and `sleep friday` contain the wake
word and are captured by the wake branch instead. -/
theorem c3_go_to_sleep_sleeps :
    (∀ (s : SystemState) (d : CommandDeduplicator) (text : String) (now : ℚ)
      (g : GeminiResult),
      containsStr "go to sleep" (pynorm text) = true →
      containsStr "friday" (pynorm text) = false →
      (d.is_duplicate (pynorm text) now).1 = false →
      (s.is_awake now).1 = true →
      receive_command s d text now g =
        (.sleepAck, s.sleep_now, (d.is_duplicate (pynorm text) now).2,
         [.say farewellMsg])) ∧
    (∀ text : String,
      containsStr "goodbye friday" (pynorm text) = true ∨
        containsStr "sleep friday" (pynorm text) = true →
      containsStr "friday" (pynorm text) = true) := by
  constructor
  · intro s d text now g hsleep hfri hdup haw
    have hne : pynorm text ≠ "" := ne_empty_of_containsStr (by decide) hsleep
    have h0 : (pynorm text == "") = false := beq_eq_false_iff_ne.2 hne
    have hsp : isSleepPhrase (pynorm text) = true := by
      unfold isSleepPhrase
      rw [hsleep]
      rfl
    unfold receive_command
    simp only [h0, Bool.false_eq_true, if_false, hdup, hfri, hsp, if_true]
    rw [is_awake_of_true haw]
    rfl
  · intro text h
    rcases h with h | h
    · exact containsStr_trans (by decide) h
    · exact containsStr_trans (by decide) h

/-- C3 witness: `go to sleep` on a concrete awake session. -/
theorem c3_go_to_sleep_sleeps_witness :
    receive_command { initState with awake := true, awake_until := some 200 } initDedup
        "go to sleep" 100 ⟨false, none, ""⟩ =
      (.sleepAck, initState,
       { initDedup with last_command := "go to sleep", last_command_time := 100 },
       [.say farewellMsg]) :=
  c3_go_to_sleep_sleeps.1 { initState with awake := true, awake_until := some 200 }
    initDedup "go to sleep" 100 ⟨false, none, ""⟩ (by decide) (by decide)
    (by with_unfolding_all decide) (by with_unfolding_all decide)

/-- C10 counterexample: a keyword-table entry whose trigger contains
`friday` can still be executed through `POST /api/command` — not by the
utterance's own text, but when the classifier maps a friday-free utterance
onto it: here Gemini maps `turn yourself off please` to `shutdown friday`
and the resolver dispatches the `shutdown_friday` action. -/
theorem c10_wake_counterexample :
    receive_command { initState with awake := true, awake_until := some 200 } initDedup
        "turn yourself off please" 100 ⟨true, some "shutdown friday", "Okay."⟩ =
      (.geminiExec true "shutdown friday" "Okay." (some 130),
       { initState with last_command := "shutdown friday", awake := true, awake_until := some 130 },
       { initDedup with last_command := "turn yourself off please", last_command_time := 100 },
       [.classify "turn yourself off please", .say "Okay.",
        .spawnSilent "shutdown_friday"]) := by
  with_unfolding_all decide

/-- C10 as amended: every non-duplicate utterance containing `friday` makes
both resolvers wake, greet and return immediately — the sleep check, the
pattern parser, the keyword table and the classifier are never reached — so
a trigger containing `friday` (such as the table entry `shutdown friday`)
can never fire by matching the utterance itself; it remains reachable only
through a classifier-mapped command (see the counterexample). -/
theorem c10_friday_wakes_first :
    (∀ (s : SystemState) (d : CommandDeduplicator) (text : String) (now : ℚ)
      (g : GeminiResult),
      containsStr "friday" (pynorm text) = true →
      (d.is_duplicate (pynorm text) now).1 = false →
      receive_command s d text now g =
        (.wake (some (now + s.awake_duration)), s.wake_up now,
         (d.is_duplicate (pynorm text) now).2, [.say greetingMsg])) ∧
    (∀ (s : SystemState) (d : CommandDeduplicator) (text : String) (now : ℚ)
      (g : GeminiResult),
      containsStr "shutdown friday" (pynorm text) = true →
      (d.is_duplicate (pynorm text) now).1 = false →
      receive_command s d text now g =
        (.wake (some (now + s.awake_duration)), s.wake_up now,
         (d.is_duplicate (pynorm text) now).2, [.say greetingMsg])) ∧
    ("shutdown friday", "shutdown_friday") ∈ COMMANDS ∧
    (∀ (s : SystemState) (d : CommandDeduplicator) (text : String) (now : ℚ)
      (g : GeminiResult),
      containsStr "friday" (pynorm text) = true →
      (d.is_duplicate (pynorm text) now).1 = false →
      ws_receive s d text now g =
        (.wsWake, s.wake_up now, (d.is_duplicate (pynorm text) now).2,
         [.say greetingMsg])) := by
  have hmain : ∀ (s : SystemState) (d : CommandDeduplicator) (text : String) (now : ℚ)
      (g : GeminiResult),
      containsStr "friday" (pynorm text) = true →
      (d.is_duplicate (pynorm text) now).1 = false →
      receive_command s d text now g =
        (.wake (some (now + s.awake_duration)), s.wake_up now,
         (d.is_duplicate (pynorm text) now).2, [.say greetingMsg]) := by
    intro s d text now g hfri hdup
    have hne : pynorm text ≠ "" := ne_empty_of_containsStr (by decide) hfri
    have h0 : (pynorm text == "") = false := beq_eq_false_iff_ne.2 hne
    unfold receive_command
    simp only [h0, Bool.false_eq_true, if_false, hdup, hfri, if_true]
    rfl
  refine ⟨hmain, ?_, by decide, ?_⟩
  · intro s d text now g hsf hdup
    exact hmain s d text now g (containsStr_trans (by decide) hsf) hdup
  · intro s d text now g hfri hdup
    have hne : pynorm text ≠ "" := ne_empty_of_containsStr (by decide) hfri
    have h0 : (pynorm text == "") = false := beq_eq_false_iff_ne.2 hne
    unfold ws_receive
    simp only [h0, Bool.false_eq_true, if_false, hdup, hfri, if_true]

/-- C10 witness: the wake phrase embedded in a larger utterance wakes the
resolver and an utterance containing the `shutdown friday` trigger only
re-wakes, never dispatches. -/
theorem c10_friday_wakes_first_witness :
    receive_command initState initDedup "hey friday are you there" 100 ⟨false, none, ""⟩ =
      (.wake (some 130), { initState with awake := true, awake_until := some 130 },
       { initDedup with last_command := "hey friday are you there", last_command_time := 100 },
       [.say greetingMsg]) ∧
    receive_command initState initDedup "shutdown friday now" 100
        ⟨true, some "shutdown friday", "Okay."⟩ =
      (.wake (some 130), { initState with awake := true, awake_until := some 130 },
       { initDedup with last_command := "shutdown friday now", last_command_time := 100 },
       [.say greetingMsg]) :=
  by
  refine ⟨?_, ?_⟩
  · have h := c10_friday_wakes_first.1 initState initDedup "hey friday are you there" 100
      ⟨false, none, ""⟩ (by decide) (by with_unfolding_all decide)
    rw [h]
    with_unfolding_all decide
  · have h := c10_friday_wakes_first.2.1 initState initDedup "shutdown friday now" 100
      ⟨true, some "shutdown friday", "Okay."⟩ (by decide) (by with_unfolding_all decide)
    rw [h]
    with_unfolding_all decide

/-- C2 counterexample: `open youtube` — an awake, non-duplicate utterance
that is a keyword-table match (first conjunct) — is nevertheless handed to
the classifier, and when the classifier reports no command nothing local is
executed at all: the resolver's events are exactly the classifier call and
its spoken reply, with no dispatched action.  Local rules are therefore not
tried before delegation. -/
theorem c2_classifier_counterexample :
    keywordLookup "open youtube" = some ("open youtube", "open_youtube") ∧
    receive_command { initState with awake := true, awake_until := some 200 } initDedup
        "open youtube" 100 ⟨false, none, "hello"⟩ =
      (.geminiChat "hello" (some 130),
       { initState with awake := true, awake_until := some 130 },
       { initDedup with last_command := "open youtube", last_command_time := 100 },
       [.classify "open youtube", .say "hello"]) := by
  constructor
  · decide
  · with_unfolding_all decide

/-- C2 as amended: every awake, non-duplicate utterance that neither
contains the wake word nor a sleep phrase is always delegated to the
classifier first; the local pipeline (pending clarification, then the
pattern parser, then the keyword table — the order inside
`_execute_command_silent`) runs only on the classifier's mapped command,
and only when one is reported. -/
theorem c2_always_delegates :
    ∀ (s : SystemState) (d : CommandDeduplicator) (text : String) (now : ℚ)
      (g : GeminiResult),
      pynorm text ≠ "" →
      (d.is_duplicate (pynorm text) now).1 = false →
      containsStr "friday" (pynorm text) = false →
      isSleepPhrase (pynorm text) = false →
      (s.is_awake now).1 = true →
      receive_command s d text now g =
        (if gHasCmd g then
          (ApiResult.geminiExec (_execute_command_silent s (g.command.getD "")).1
            (g.command.getD "") g.speak_response
            ((if (_execute_command_silent s (g.command.getD "")).1 then
                ((_execute_command_silent s (g.command.getD "")).2.1).extend_awake now
              else (_execute_command_silent s (g.command.getD "")).2.1).awake_until),
           (if (_execute_command_silent s (g.command.getD "")).1 then
              ((_execute_command_silent s (g.command.getD "")).2.1).extend_awake now
            else (_execute_command_silent s (g.command.getD "")).2.1),
           (d.is_duplicate (pynorm text) now).2,
           [Ev.classify (pynorm text)] ++
             (if g.speak_response == "" then [] else [Ev.say g.speak_response]) ++
             (_execute_command_silent s (g.command.getD "")).2.2)
        else
          (ApiResult.geminiChat g.speak_response (s.extend_awake now).awake_until,
           s.extend_awake now, (d.is_duplicate (pynorm text) now).2,
           [Ev.classify (pynorm text)] ++
             (if g.speak_response == "" then [] else [Ev.say g.speak_response]))) := by
  intro s d text now g hne hdup hfri hsp haw
  have h0 : (pynorm text == "") = false := beq_eq_false_iff_ne.2 hne
  unfold receive_command receive_gemini
  simp only [h0, Bool.false_eq_true, if_false, hdup, hfri, hsp, if_true]
  rw [is_awake_of_true haw]
  by_cases hg : gHasCmd g = true
  · simp only [hg, if_true]
    rfl
  · simp only [Bool.not_eq_true] at hg
    simp only [hg, Bool.false_eq_true, if_false]
    rfl

/-- C2 witness: a free-form question from an awake session goes to the
classifier and is answered conversationally. -/
theorem c2_always_delegates_witness :
    receive_command { initState with awake := true, awake_until := some 200 } initDedup
        "how are you today" 100 ⟨false, none, "Doing great, sir."⟩ =
      (.geminiChat "Doing great, sir." (some 130),
       { initState with awake := true, awake_until := some 130 },
       { initDedup with last_command := "how are you today", last_command_time := 100 },
       [.classify "how are you today", .say "Doing great, sir."]) := by
  have h := c2_always_delegates { initState with awake := true, awake_until := some 200 }
    initDedup "how are you today" 100 ⟨false, none, "Doing great, sir."⟩
    (by decide) (by with_unfolding_all decide) (by decide) (by decide)
    (by with_unfolding_all decide)
  rw [h]
  with_unfolding_all decide

/-- C1 counterexample: with the system powered off, resolving the wake
phrase does not return an offline result — the resolver performs `wake_up`,
requests the greeting speech and returns a wake result, leaving the session
awake while still powered off.  `receive_command` contains no
`is_powered_on` check at all. -/
theorem c1_offline_counterexample :
    receive_command { initState with is_powered_on := false } initDedup "friday" 100
        ⟨false, none, ""⟩ =
      (.wake (some 130),
       { initState with is_powered_on := false, awake := true, awake_until := some 130 },
       { initDedup with last_command := "friday", last_command_time := 100 },
       [.say greetingMsg]) := by
  with_unfolding_all decide

/-- `is_awake` commutes with overwriting the power flag. -/
theorem is_awake_pow (b : Bool) (s : SystemState) (now : ℚ) :
    ({ s with is_powered_on := b } : SystemState).is_awake now =
      ((s.is_awake now).1, { (s.is_awake now).2.1 with is_powered_on := b },
       (s.is_awake now).2.2) := by
  obtain ⟨p, sp, mic, vol, lc, aw, au, dur, pa⟩ := s
  unfold SystemState.is_awake
  cases aw <;> cases au <;> dsimp only [] <;> try rfl
  split_ifs <;> rfl

/-- `extend_awake` commutes with overwriting the power flag. -/
theorem extend_awake_pow (b : Bool) (s : SystemState) (now : ℚ) :
    ({ s with is_powered_on := b } : SystemState).extend_awake now =
      { s.extend_awake now with is_powered_on := b } := by
  obtain ⟨p, sp, mic, vol, lc, aw, au, dur, pa⟩ := s
  unfold SystemState.extend_awake
  cases aw <;> rfl

/-- `_resolve_pending_action` commutes with overwriting the power flag. -/
theorem resolve_pending_pow (b : Bool) (s : SystemState) (c : String) :
    _resolve_pending_action { s with is_powered_on := b } c =
      ((_resolve_pending_action s c).1,
       { (_resolve_pending_action s c).2.1 with is_powered_on := b },
       (_resolve_pending_action s c).2.2) := by
  obtain ⟨p, sp, mic, vol, lc, aw, au, dur, pa⟩ := s
  unfold _resolve_pending_action
  cases pa
  · rfl
  · dsimp only []
    split_ifs <;> rfl

/-- `parseTail13` commutes with overwriting the power flag. -/
theorem parseTail13_pow (b : Bool) (s : SystemState) (c : String) :
    parseTail13 { s with is_powered_on := b } c =
      ((parseTail13 s c).1, { (parseTail13 s c).2.1 with is_powered_on := b },
       (parseTail13 s c).2.2) := by
  unfold parseTail13
  repeat' first
    | rfl
    | split

/-- `parseTail10` commutes with overwriting the power flag. -/
theorem parseTail10_pow (b : Bool) (s : SystemState) (c : String) :
    parseTail10 { s with is_powered_on := b } c =
      ((parseTail10 s c).1, { (parseTail10 s c).2.1 with is_powered_on := b },
       (parseTail10 s c).2.2) := by
  unfold parseTail10
  repeat' first
    | split
    | rw [parseTail13_pow]
    | rfl

/-- `_parse_and_execute_search` commutes with overwriting the power flag. -/
theorem parse_pow (b : Bool) (s : SystemState) (c : String) :
    _parse_and_execute_search { s with is_powered_on := b } c =
      ((_parse_and_execute_search s c).1,
       { (_parse_and_execute_search s c).2.1 with is_powered_on := b },
       (_parse_and_execute_search s c).2.2) := by
  unfold _parse_and_execute_search
  repeat' first
    | split
    | rw [parseTail10_pow]
    | rfl

/-- `_execute_command_silent` commutes with overwriting the power flag. -/
theorem silent_pow (b : Bool) (s : SystemState) (c : String) :
    _execute_command_silent { s with is_powered_on := b } c =
      ((_execute_command_silent s c).1,
       { (_execute_command_silent s c).2.1 with is_powered_on := b },
       (_execute_command_silent s c).2.2) := by
  obtain ⟨p, sp, mic, vol, lc, aw, au, dur, pa⟩ := s
  unfold _execute_command_silent
  dsimp only []
  rw [resolve_pending_pow b ⟨p, sp, mic, vol, c, aw, au, dur, pa⟩ (pynorm c)]
  rcases hres : _resolve_pending_action ⟨p, sp, mic, vol, c, aw, au, dur, pa⟩ (pynorm c)
    with ⟨rb, rs, rev⟩
  cases rb
  · dsimp only []
    rw [parse_pow b rs (pynorm c)]
    rcases hp : _parse_and_execute_search rs (pynorm c) with ⟨pb, ps, pev⟩
    cases pb
    · dsimp only []
      split <;> rfl
    · rfl
  · rfl

/-- `receive_gemini` commutes with overwriting the power flag. -/
theorem receive_gemini_pow (b : Bool) (s : SystemState) (d : CommandDeduplicator)
    (c : String) (now : ℚ) (g : GeminiResult) (ev : List Ev) :
    receive_gemini { s with is_powered_on := b } d c now g ev =
      ((receive_gemini s d c now g ev).1,
       { (receive_gemini s d c now g ev).2.1 with is_powered_on := b },
       (receive_gemini s d c now g ev).2.2.1,
       (receive_gemini s d c now g ev).2.2.2) := by
  unfold receive_gemini
  rw [is_awake_pow]
  dsimp only []
  by_cases hr : (s.is_awake now).1 = true
  · simp only [hr, if_true]
    by_cases hg : gHasCmd g = true
    · simp only [hg, if_true]
      rw [silent_pow]
      dsimp only []
      by_cases hex :
          (_execute_command_silent (s.is_awake now).2.1 (g.command.getD "")).1 = true
      · simp only [hex, if_true]
        rw [extend_awake_pow]
      · simp only [hex, Bool.false_eq_true, if_false]
    · simp only [hg, Bool.false_eq_true, if_false]
      rw [extend_awake_pow]
  · simp only [hr, Bool.false_eq_true, if_false]

/-- C1 as amended: the resolver never reads or writes `poweredOn`; resolving
any utterance while powered off produces exactly the same result, the same
session mutations (dedup registration, wake, sleep, pending slot, timers)
and the same event sequence as while powered on, with the flag itself left
untouched.  Only the downstream Speech collaborator (`tts.speak`) drops its
output when the flag is off. -/
theorem c1_resolver_ignores_power :
    ∀ (b : Bool) (s : SystemState) (d : CommandDeduplicator) (text : String) (now : ℚ)
      (g : GeminiResult),
      receive_command { s with is_powered_on := b } d text now g =
        ((receive_command s d text now g).1,
         { (receive_command s d text now g).2.1 with is_powered_on := b },
         (receive_command s d text now g).2.2.1,
         (receive_command s d text now g).2.2.2) := by
  intro b s d text now g
  unfold receive_command
  dsimp only []
  by_cases h0 : (pynorm text == "") = true
  · simp only [h0, if_true]
  · simp only [h0, Bool.false_eq_true, if_false]
    by_cases h1 : (d.is_duplicate (pynorm text) now).1 = true
    · simp only [h1, if_true]
    · simp only [h1, Bool.false_eq_true, if_false]
      by_cases h2 : containsStr "friday" (pynorm text) = true
      · simp only [h2, if_true]
        rfl
      · simp only [h2, Bool.false_eq_true, if_false]
        by_cases h3 : isSleepPhrase (pynorm text) = true
        · simp only [h3, if_true]
          rw [is_awake_pow]
          dsimp only []
          by_cases h4 : (s.is_awake now).1 = true
          · simp only [h4, if_true]
            rfl
          · simp only [h4, Bool.false_eq_true, if_false]
            rw [receive_gemini_pow]
        · simp only [h3, Bool.false_eq_true, if_false]
          rw [receive_gemini_pow]

/-- C4: two `isDuplicate` calls with identical text strictly less than the
5-second window apart — the second returns `true`, suppresses the command,
and leaves the stored record exactly as the first call set it; the record is
updated only by calls that return `false`; and in the resolver a duplicate
yields the duplicate reply with no state change and no events. -/
theorem c4_dedup_suppress_and_update :
    (∀ (d d₁ : CommandDeduplicator) (c : String) (t₁ t₂ : ℚ),
        d.duplicate_window = 5 →
        d.is_duplicate c t₁ = (false, d₁) →
        t₁ ≤ t₂ → t₂ - t₁ < 5 →
        d₁.is_duplicate c t₂ = (true, d₁) ∧
          d₁.last_command = c ∧ d₁.last_command_time = t₁) ∧
    (∀ (d : CommandDeduplicator) (c : String) (t : ℚ),
        ((d.is_duplicate c t).1 = true → (d.is_duplicate c t).2 = d) ∧
        ((d.is_duplicate c t).1 = false →
          (d.is_duplicate c t).2 =
            { last_command := c, last_command_time := t,
              duplicate_window := d.duplicate_window })) ∧
    (∀ (s : SystemState) (d : CommandDeduplicator) (text : String) (now : ℚ)
        (g : GeminiResult),
        pynorm text ≠ "" →
        (d.is_duplicate (pynorm text) now).1 = true →
        receive_command s d text now g = (.duplicate, s, d, [])) := by
  have hupd : ∀ (d : CommandDeduplicator) (c : String) (t : ℚ),
      ((d.is_duplicate c t).1 = true → (d.is_duplicate c t).2 = d) ∧
      ((d.is_duplicate c t).1 = false →
        (d.is_duplicate c t).2 =
          { last_command := c, last_command_time := t,
            duplicate_window := d.duplicate_window }) := by
    intro d c t
    constructor <;> (unfold CommandDeduplicator.is_duplicate; split <;> simp)
  refine ⟨?_, hupd, ?_⟩
  · intro d d₁ c t₁ t₂ hw h ht hlt
    have h1 : (d.is_duplicate c t₁).1 = false := by rw [h]
    have h2 :
        d₁ = { last_command := c, last_command_time := t₁, duplicate_window := d.duplicate_window } := by
      have := (hupd d c t₁).2 h1
      rw [h] at this
      exact this
    subst h2
    refine ⟨?_, rfl, rfl⟩
    have hlt' : t₂ - t₁ < d.duplicate_window := by rw [hw]; exact hlt
    unfold CommandDeduplicator.is_duplicate
    simp [hlt']
  · intro s d text now g hne hdup
    have h0 : (pynorm text == "") = false := beq_eq_false_iff_ne.2 hne
    have h2 : (d.is_duplicate (pynorm text) now).2 = d := (hupd d _ now).1 hdup
    unfold receive_command
    simp only [h0, Bool.false_eq_true, if_false, hdup, if_true, h2]

/-- C4 witness: a concrete pair of calls 3 seconds apart. -/
theorem c4_dedup_suppress_and_update_witness :
    initDedup.is_duplicate "hello" 0 =
      (false, { last_command := "hello", last_command_time := 0, duplicate_window := 5 }) ∧
    ({ last_command := "hello", last_command_time := 0, duplicate_window := 5 } :
        CommandDeduplicator).is_duplicate "hello" 3 =
      (true, { last_command := "hello", last_command_time := 0, duplicate_window := 5 }) := by
  refine ⟨by with_unfolding_all decide, ?_⟩
  exact (c4_dedup_suppress_and_update.1 initDedup _ "hello" 0 3 rfl
    (by with_unfolding_all decide) (by norm_num) (by norm_num)).1

/-- C9: `extend_awake` is a no-op on a sleeping session (it never wakes it),
and on an awake session pushes `awake_until` to `now + awake_duration`. -/
theorem c9_extend_awake_noop_when_asleep :
    ∀ (s : SystemState) (now : ℚ),
      (s.awake = false → s.extend_awake now = s) ∧
      (s.awake = true →
        s.extend_awake now = { s with awake_until := some (now + s.awake_duration) }) := by
  intro s now
  constructor <;> intro h <;> unfold SystemState.extend_awake <;> simp [h]

/-- C9 witness: extending the initial (asleep) state changes nothing. -/
theorem c9_extend_awake_noop_when_asleep_witness :
    initState.awake = false ∧ initState.extend_awake 7 = initState :=
  ⟨rfl, (c9_extend_awake_noop_when_asleep initState 7).1 rfl⟩

end Friday
